import Mathlib

/-!
Verification of the Netball tournament data layer.

The repository's core is `models/database_manager.py` (a thin SQLite wrapper:
lazy singleton connection, parameterized execute/fetch, commit/rollback) and
`models/schema.py` (five-table schema with cascade foreign keys, seed data,
introspection helpers).  We embed the database state, the engine semantics
declared by the schema's SQL, and the manager's connection lifecycle as
executable Lean definitions, and prove the specification's claims about them.
-/

namespace Netball

/-- Errors raised by the embedded engine (`sqlite3.Error` subclasses).
`integrityError` models `sqlite3.IntegrityError` (unique / primary-key /
check / foreign-key violations); `operationalError` models
`sqlite3.OperationalError` (malformed statement, missing table, ...). -/
inductive SqlError where
  | integrityError (msg : String)
  | operationalError (msg : String)
deriving Repr, DecidableEq

/-- A value bound into a parameterized query (subset of SQLite storage classes
the repository uses). -/
inductive Value where
  | int (i : Int)
  | text (t : String)
  | null
deriving Repr, DecidableEq

/-- A result row.  `connection.row_factory = sqlite3.Row` makes every row a
field-named record, which we model as an association list from column name to
value. -/
abbrev Row := List (String × Value)

/-- Row of the `divisions` table: `id INTEGER PRIMARY KEY, name TEXT NOT NULL UNIQUE`. -/
structure Division where
  id : Int
  name : String
deriving Repr, DecidableEq

/-- Row of the `teams` table: `id INTEGER PRIMARY KEY, name TEXT NOT NULL,
division_id INTEGER NOT NULL REFERENCES divisions(id) ON DELETE CASCADE`. -/
structure Team where
  id : Int
  name : String
  division_id : Int
deriving Repr, DecidableEq

/-- Row of the `players` table: `id INTEGER PRIMARY KEY, name TEXT NOT NULL,
position TEXT NOT NULL, team_id INTEGER NOT NULL REFERENCES teams(id) ON DELETE CASCADE`. -/
structure Player where
  id : Int
  name : String
  position : String
  team_id : Int
deriving Repr, DecidableEq

/-- Row of the `matches` table: foreign keys `division_id → divisions`,
`team1_id → teams`, `team2_id → teams`, all `ON DELETE CASCADE`, with
`CHECK (team1_id != team2_id)`. -/
structure MatchRec where
  id : Int
  date : String
  division_id : Int
  team1_id : Int
  team2_id : Int
  team1_score : Int
  team2_score : Int
deriving Repr, DecidableEq

/-- Row of the `player_stats` table: foreign keys `player_id → players`,
`match_id → matches`, both `ON DELETE CASCADE`, with `UNIQUE(player_id, match_id)`. -/
structure PlayerStat where
  id : Int
  player_id : Int
  match_id : Int
  attempts : Int
  goals : Int
  center_passes : Int
  tips : Int
  rebounds : Int
  interceptions : Int
  turnovers : Int
deriving Repr, DecidableEq

/-- The committed contents of the database file: the catalog of existing table
names (`sqlite_master`, in creation order) and the rows of the five schema
tables. -/
structure DB where
  tables : List String
  divisions : List Division
  teams : List Team
  players : List Player
  match_rows : List MatchRec
  player_stats : List PlayerStat
deriving Repr, DecidableEq

/-- A freshly created, empty database file. -/
def emptyDB : DB := ⟨[], [], [], [], [], []⟩

/-- An open `sqlite3.Connection` as configured by `DatabaseManager.connect`:
`PRAGMA foreign_keys = ON` has been executed and `row_factory` set to
`sqlite3.Row`. -/
structure Connection where
  foreign_keys : Bool
  row_factory : Bool
deriving Repr, DecidableEq

/-- The `DatabaseManager` object: `self.db_name` and `self.connection`
(`None` until first use). -/
structure DatabaseManager where
  db_name : String
  connection : Option Connection
deriving Repr, DecidableEq

/-- `DatabaseManager.__init__`: stores the file name, leaves the connection unset. -/
def DatabaseManager.init (db_name : String) : DatabaseManager := ⟨db_name, none⟩

/-- Whole-world state of the data layer: the database file plus the manager. -/
structure MState where
  file : DB
  mgr : DatabaseManager
deriving Repr, DecidableEq

/-- Semantics of a write statement (INSERT / UPDATE / DELETE / DDL): given the
bound parameters and the committed database, either the updated database
together with `cursor.rowcount`, or the engine's error. -/
abbrev WriteQuery := List Value → DB → Except SqlError (DB × Int)

/-- Semantics of a SELECT statement: given the bound parameters and the
committed database, the result rows in result order, or the engine's error. -/
abbrev ReadQuery := List Value → DB → Except SqlError (List Row)

/-- `DatabaseManager.connect`: if a connection is already open it is returned
unchanged, otherwise a new connection is opened with foreign-key enforcement
on and the `sqlite3.Row` row factory, and remembered in `self.connection`. -/
def connect (s : MState) : MState × Connection :=
  match s.mgr.connection with
  | some c => (s, c)
  | none =>
    let c : Connection := ⟨true, true⟩
    ({ s with mgr := { s.mgr with connection := some c } }, c)

/-- The parameters actually bound by `cursor.execute`.  The source tests the
argument with `if params:`, Python truthiness, so both `None` and the empty
tuple take the no-parameters branch `cursor.execute(query)`. -/
def effectiveParams (params : Option (List Value)) : List Value :=
  match params with
  | some ps => if ps.isEmpty then [] else ps
  | none => []

/-- `DatabaseManager.execute_query`: connect (lazily), run the statement on
the file; on success `conn.commit()` and return `cursor.rowcount`; on an
engine error `conn.rollback()` (the file keeps its previous committed
contents) and re-raise the very same error. -/
def execute_query (s : MState) (query : WriteQuery) (params : Option (List Value)) :
    MState × Except SqlError Int :=
  let s1 := (connect s).1
  match query (effectiveParams params) s1.file with
  | .ok (db', n) => ({ s1 with file := db' }, .ok n)
  | .error e => (s1, .error e)

/-- `DatabaseManager.fetch_all`: connect (lazily), run the SELECT, return all
rows; errors propagate unchanged and nothing is committed. -/
def fetch_all (s : MState) (query : ReadQuery) (params : Option (List Value)) :
    MState × Except SqlError (List Row) :=
  let s1 := (connect s).1
  match query (effectiveParams params) s1.file with
  | .ok rows => (s1, .ok rows)
  | .error e => (s1, .error e)

/-- `DatabaseManager.fetch_one`: like `fetch_all` but returns
`cursor.fetchone()`: the first result row, or `none` when there is none. -/
def fetch_one (s : MState) (query : ReadQuery) (params : Option (List Value)) :
    MState × Except SqlError (Option Row) :=
  let s1 := (connect s).1
  match query (effectiveParams params) s1.file with
  | .ok rows => (s1, .ok rows.head?)
  | .error e => (s1, .error e)

/-- `DatabaseManager.close`: `if self.connection:` (object truthiness, i.e.
"is not None") close it and reset `self.connection` to `None`. -/
def close (s : MState) : MState :=
  match s.mgr.connection with
  | some _ => { s with mgr := { s.mgr with connection := none } }
  | none => s

/-- `DatabaseManager.__enter__`: returns `self` — the managed resource handed
to the scoped body is the manager itself (connections stay lazy). -/
def enter_ctx (s : MState) : MState := s

/-- `DatabaseManager.__exit__`: unconditionally calls `self.close()`,
whatever the exception information; returning `None` it never swallows the
body's exception. -/
def exit_ctx (s : MState) : MState := close s

/-- A `with DatabaseManager(...) as db:` block: enter, run the body (which may
finish normally or raise), then always run `__exit__`; the body's outcome,
error included, is propagated to the caller. -/
def withManager {α : Type} (s : MState) (body : MState → MState × Except SqlError α) :
    MState × Except SqlError α :=
  let s1 := enter_ctx s
  let r := body s1
  (exit_ctx r.1, r.2)

/-! ## Engine semantics of the schema DDL (`DatabaseSchema.create_tables` / `drop_tables`) -/

/-- Engine semantics of one `CREATE TABLE IF NOT EXISTS n (...)` statement:
when the table already exists nothing changes; otherwise the (empty) table is
added to the catalog. -/
def createTable (db : DB) (n : String) : DB :=
  if n ∈ db.tables then db
  else
    let db' := { db with tables := db.tables ++ [n] }
    if n = "divisions" then { db' with divisions := [] }
    else if n = "teams" then { db' with teams := [] }
    else if n = "players" then { db' with players := [] }
    else if n = "matches" then { db' with match_rows := [] }
    else if n = "player_stats" then { db' with player_stats := [] }
    else db'

/-- Engine semantics of one `DROP TABLE IF EXISTS n` statement: the table is
removed from the catalog together with its rows; when it does not exist
nothing changes. -/
def dropTable (db : DB) (n : String) : DB :=
  let db' := { db with tables := db.tables.filter (fun t => !(t == n)) }
  if n = "divisions" then { db' with divisions := [] }
  else if n = "teams" then { db' with teams := [] }
  else if n = "players" then { db' with players := [] }
  else if n = "matches" then { db' with match_rows := [] }
  else if n = "player_stats" then { db' with player_stats := [] }
  else db'

/-- The tables created by `DatabaseSchema.create_tables`, in the order its
five `execute_query` calls issue them. -/
def createTablesOrder : List String :=
  ["divisions", "teams", "players", "matches", "player_stats"]

/-- The list literal `tables` in `DatabaseSchema.drop_tables`, in the order
its loop issues `DROP TABLE IF EXISTS` statements. -/
def dropTablesOrder : List String :=
  ["player_stats", "matches", "players", "teams", "divisions"]

/-- `DatabaseSchema.create_tables`: one `CREATE TABLE IF NOT EXISTS` per
schema table, in dependency order. -/
def create_tables (db : DB) : DB := createTablesOrder.foldl createTable db

/-- `DatabaseSchema.drop_tables`: one `DROP TABLE IF EXISTS` per schema
table, in reverse dependency order. -/
def drop_tables (db : DB) : DB := dropTablesOrder.foldl dropTable db

/-! ## Introspection (`DatabaseSchema.get_table_names` / `table_exists`) -/

/-- Whether character `c` equals the lowercase ASCII letter `l`,
ASCII-case-insensitively (the uppercase form of `l` is `l - 32`). -/
def charLowerEq (c l : Char) : Bool := c == l || c.toNat == l.toNat - 32

/-- Engine semantics of `name LIKE 'sqlite_%'`.  SQLite's `LIKE` is
case-insensitive for ASCII, `_` matches exactly one character and `%` any
sequence, so the pattern matches exactly the names of at least 7 characters
whose first six characters spell `sqlite` case-insensitively. -/
def matchesSqliteLike (n : String) : Bool :=
  match n.data with
  | c1 :: c2 :: c3 :: c4 :: c5 :: c6 :: _ :: _ =>
    charLowerEq c1 's' && charLowerEq c2 'q' && charLowerEq c3 'l' &&
      charLowerEq c4 'i' && charLowerEq c5 't' && charLowerEq c6 'e'
  | _ => false

/-- Insert a name into an alphabetically sorted list (helper for `ORDER BY name`). -/
def insertSorted (s : String) : List String → List String
  | [] => [s]
  | t :: ts => if s ≤ t then s :: t :: ts else t :: insertSorted s ts

/-- Sort names alphabetically (engine semantics of `ORDER BY name` under the
default BINARY collation). -/
def sortNames (l : List String) : List String := l.foldr insertSorted []

/-- `DatabaseSchema.get_table_names`: `SELECT name FROM sqlite_master WHERE
type='table' AND name NOT LIKE 'sqlite_%' ORDER BY name`, projected to the
`name` field of each row. -/
def get_table_names (db : DB) : List String :=
  sortNames (db.tables.filter (fun n => !(matchesSqliteLike n)))

/-- `DatabaseSchema.table_exists`: `SELECT name FROM sqlite_master WHERE
type='table' AND name = ?` via `fetch_one`, true exactly when a row comes
back (`=` compares under BINARY collation, i.e. exactly). -/
def table_exists (db : DB) (n : String) : Bool := db.tables.contains n

/-! ## Engine semantics of INSERT under the declared constraints

Every constraint below is declared in `DatabaseSchema.create_tables`; with
`PRAGMA foreign_keys = ON` the engine checks the foreign keys too.  Every
violation raises `sqlite3.IntegrityError`. -/

/-- `INSERT INTO divisions (id, name) VALUES (?, ?)` on the created schema:
`id` is the primary key, `name` is `NOT NULL UNIQUE`. -/
def insertDivision (db : DB) (i : Int) (n : String) : Except SqlError DB :=
  if db.divisions.any (fun x => x.id == i) then
    .error (.integrityError "UNIQUE constraint failed: divisions.id")
  else if db.divisions.any (fun x => x.name == n) then
    .error (.integrityError "UNIQUE constraint failed: divisions.name")
  else
    .ok { db with divisions := db.divisions ++ [⟨i, n⟩] }

/-- `INSERT INTO teams (id, name, division_id) VALUES (?, ?, ?)`: `id` is the
primary key and `division_id` must reference an existing division. -/
def insertTeam (db : DB) (i : Int) (n : String) (divId : Int) : Except SqlError DB :=
  if db.teams.any (fun x => x.id == i) then
    .error (.integrityError "UNIQUE constraint failed: teams.id")
  else if !(db.divisions.any (fun x => x.id == divId)) then
    .error (.integrityError "FOREIGN KEY constraint failed")
  else
    .ok { db with teams := db.teams ++ [⟨i, n, divId⟩] }

/-- `INSERT INTO players (id, name, position, team_id) VALUES (?, ?, ?, ?)`:
`id` is the primary key and `team_id` must reference an existing team. -/
def insertPlayer (db : DB) (i : Int) (n pos : String) (teamId : Int) : Except SqlError DB :=
  if db.players.any (fun x => x.id == i) then
    .error (.integrityError "UNIQUE constraint failed: players.id")
  else if !(db.teams.any (fun x => x.id == teamId)) then
    .error (.integrityError "FOREIGN KEY constraint failed")
  else
    .ok { db with players := db.players ++ [⟨i, n, pos, teamId⟩] }

/-- `INSERT INTO matches (...)`: `id` is the primary key, the row must pass
`CHECK (team1_id != team2_id)`, and the three foreign keys must resolve. -/
def insertMatch (db : DB) (m : MatchRec) : Except SqlError DB :=
  if db.match_rows.any (fun x => x.id == m.id) then
    .error (.integrityError "UNIQUE constraint failed: matches.id")
  else if m.team1_id == m.team2_id then
    .error (.integrityError "CHECK constraint failed: matches")
  else if !(db.divisions.any (fun x => x.id == m.division_id)) then
    .error (.integrityError "FOREIGN KEY constraint failed")
  else if !(db.teams.any (fun x => x.id == m.team1_id)) then
    .error (.integrityError "FOREIGN KEY constraint failed")
  else if !(db.teams.any (fun x => x.id == m.team2_id)) then
    .error (.integrityError "FOREIGN KEY constraint failed")
  else
    .ok { db with match_rows := db.match_rows ++ [m] }

/-- `INSERT INTO player_stats (...)`: `id` is the primary key, the pair
`(player_id, match_id)` is `UNIQUE`, and the two foreign keys must resolve. -/
def insertPlayerStat (db : DB) (ps : PlayerStat) : Except SqlError DB :=
  if db.player_stats.any (fun x => x.id == ps.id) then
    .error (.integrityError "UNIQUE constraint failed: player_stats.id")
  else if db.player_stats.any
      (fun x => x.player_id == ps.player_id && x.match_id == ps.match_id) then
    .error (.integrityError "UNIQUE constraint failed: player_stats.player_id, player_stats.match_id")
  else if !(db.players.any (fun x => x.id == ps.player_id)) then
    .error (.integrityError "FOREIGN KEY constraint failed")
  else if !(db.match_rows.any (fun x => x.id == ps.match_id)) then
    .error (.integrityError "FOREIGN KEY constraint failed")
  else
    .ok { db with player_stats := db.player_stats ++ [ps] }

/-! ## Engine semantics of `INSERT OR IGNORE` (used by `insert_sample_data`)

SQLite's `OR IGNORE` conflict algorithm silently skips a row that violates a
`UNIQUE`, `PRIMARY KEY`, `CHECK` or `NOT NULL` constraint; it does NOT apply
to foreign-key constraints, which still raise. -/

/-- `INSERT OR IGNORE INTO divisions (id, name) VALUES (?, ?)`. -/
def insertOrIgnoreDivision (db : DB) (i : Int) (n : String) : Except SqlError DB :=
  if db.divisions.any (fun x => x.id == i) || db.divisions.any (fun x => x.name == n) then
    .ok db
  else
    .ok { db with divisions := db.divisions ++ [⟨i, n⟩] }

/-- `INSERT OR IGNORE INTO teams (id, name, division_id) VALUES (?, ?, ?)`. -/
def insertOrIgnoreTeam (db : DB) (i : Int) (n : String) (divId : Int) : Except SqlError DB :=
  if db.teams.any (fun x => x.id == i) then
    .ok db
  else if !(db.divisions.any (fun x => x.id == divId)) then
    .error (.integrityError "FOREIGN KEY constraint failed")
  else
    .ok { db with teams := db.teams ++ [⟨i, n, divId⟩] }

/-- `INSERT OR IGNORE INTO players (id, name, position, team_id) VALUES (?, ?, ?, ?)`. -/
def insertOrIgnorePlayer (db : DB) (i : Int) (n pos : String) (teamId : Int) :
    Except SqlError DB :=
  if db.players.any (fun x => x.id == i) then
    .ok db
  else if !(db.teams.any (fun x => x.id == teamId)) then
    .error (.integrityError "FOREIGN KEY constraint failed")
  else
    .ok { db with players := db.players ++ [⟨i, n, pos, teamId⟩] }

/-- `INSERT OR IGNORE INTO matches (...)`: primary-key and CHECK conflicts
are ignored, foreign-key violations still raise. -/
def insertOrIgnoreMatch (db : DB) (m : MatchRec) : Except SqlError DB :=
  if db.match_rows.any (fun x => x.id == m.id) || m.team1_id == m.team2_id then
    .ok db
  else if !(db.divisions.any (fun x => x.id == m.division_id)) ||
      !(db.teams.any (fun x => x.id == m.team1_id)) ||
      !(db.teams.any (fun x => x.id == m.team2_id)) then
    .error (.integrityError "FOREIGN KEY constraint failed")
  else
    .ok { db with match_rows := db.match_rows ++ [m] }

/-- `INSERT OR IGNORE INTO player_stats (...)`: primary-key and
`(player_id, match_id)` uniqueness conflicts are ignored, foreign-key
violations still raise. -/
def insertOrIgnorePlayerStat (db : DB) (ps : PlayerStat) : Except SqlError DB :=
  if db.player_stats.any (fun x => x.id == ps.id) ||
      db.player_stats.any
        (fun x => x.player_id == ps.player_id && x.match_id == ps.match_id) then
    .ok db
  else if !(db.players.any (fun x => x.id == ps.player_id)) ||
      !(db.match_rows.any (fun x => x.id == ps.match_id)) then
    .error (.integrityError "FOREIGN KEY constraint failed")
  else
    .ok { db with player_stats := db.player_stats ++ [ps] }

/-! ## Engine semantics of cascade delete

`DELETE FROM divisions WHERE id = ?` with `PRAGMA foreign_keys = ON` fires
the `ON DELETE CASCADE` actions declared in the schema: deleted divisions
cascade into `teams` and `matches`, deleted teams into `players` and
`matches`, and deleted players and matches into `player_stats`. -/

/-- A team row the statement deletes: its `division_id` references a
division row that the `DELETE` removes. -/
def teamGone (db : DB) (d : Int) (t : Team) : Bool :=
  db.divisions.any (fun x => x.id == d) && t.division_id == d

/-- The ids of the team rows the cascade removes. -/
def goneTeamIds (db : DB) (d : Int) : List Int :=
  (db.teams.filter (teamGone db d)).map Team.id

/-- A player row the cascade removes: its `team_id` references a removed team. -/
def playerGone (db : DB) (d : Int) (p : Player) : Bool :=
  (goneTeamIds db d).contains p.team_id

/-- The ids of the player rows the cascade removes. -/
def gonePlayerIds (db : DB) (d : Int) : List Int :=
  (db.players.filter (playerGone db d)).map Player.id

/-- A match row the cascade removes: its `division_id` references the removed
division, or `team1_id` / `team2_id` references a removed team. -/
def matchGone (db : DB) (d : Int) (m : MatchRec) : Bool :=
  (db.divisions.any (fun x => x.id == d) && m.division_id == d) ||
    (goneTeamIds db d).contains m.team1_id || (goneTeamIds db d).contains m.team2_id

/-- The ids of the match rows the cascade removes. -/
def goneMatchIds (db : DB) (d : Int) : List Int :=
  (db.match_rows.filter (matchGone db d)).map MatchRec.id

/-- A player-stat row the cascade removes: its `player_id` references a
removed player or its `match_id` a removed match. -/
def statGone (db : DB) (d : Int) (s : PlayerStat) : Bool :=
  (gonePlayerIds db d).contains s.player_id || (goneMatchIds db d).contains s.match_id

/-- `DELETE FROM divisions WHERE id = ?` together with all cascades the
schema declares. -/
def deleteDivision (db : DB) (d : Int) : DB :=
  { db with
    divisions := db.divisions.filter (fun x => !(x.id == d)),
    teams := db.teams.filter (fun t => !(teamGone db d t)),
    players := db.players.filter (fun p => !(playerGone db d p)),
    match_rows := db.match_rows.filter (fun m => !(matchGone db d m)),
    player_stats := db.player_stats.filter (fun s => !(statGone db d s)) }

/-! ## Sample data (`DatabaseSchema.insert_sample_data`) -/

/-- The `divisions` fixture list, verbatim from the source. -/
def sampleDivisions : List (Int × String) :=
  [(1, "Premier Division"), (2, "Division 1"), (3, "Division 2")]

/-- The `teams` fixture list, verbatim from the source. -/
def sampleTeams : List (Int × String × Int) :=
  [(1, "Red Dragons", 1), (2, "Blue Eagles", 1), (3, "Green Lions", 2), (4, "Yellow Tigers", 2)]

/-- The `players` fixture list, verbatim from the source. -/
def samplePlayers : List (Int × String × String × Int) :=
  [(1, "Alice Johnson", "Goal Shooter", 1), (2, "Bob Smith", "Goal Attack", 1),
   (3, "Charlie Brown", "Wing Attack", 2), (4, "Diana Prince", "Center", 2),
   (5, "Eve Wilson", "Goal Keeper", 3), (6, "Frank Miller", "Goal Defense", 3)]

/-- The `matches` fixture list, verbatim from the source. -/
def sampleMatches : List MatchRec :=
  [⟨1, "2024-01-15", 1, 1, 2, 45, 42⟩, ⟨2, "2024-01-22", 2, 3, 4, 38, 35⟩]

/-- The `player_stats` fixture list, verbatim from the source. -/
def samplePlayerStats : List PlayerStat :=
  [⟨1, 1, 1, 15, 12, 0, 0, 0, 0, 2⟩, ⟨2, 2, 1, 10, 8, 0, 0, 0, 0, 1⟩,
   ⟨3, 3, 1, 8, 6, 0, 0, 0, 0, 3⟩, ⟨4, 4, 1, 12, 10, 0, 0, 0, 0, 1⟩,
   ⟨5, 5, 2, 14, 11, 0, 0, 0, 0, 2⟩, ⟨6, 6, 2, 9, 7, 0, 0, 0, 0, 1⟩]

/-- `DatabaseSchema.insert_sample_data`: five loops of `INSERT OR IGNORE`
statements over the fixture lists, each issued through `execute_query` (which
commits it); the first engine error, if any, propagates. -/
def insert_sample_data (db : DB) : Except SqlError DB := do
  let db1 ← sampleDivisions.foldlM (fun d x => insertOrIgnoreDivision d x.1 x.2) db
  let db2 ← sampleTeams.foldlM (fun d x => insertOrIgnoreTeam d x.1 x.2.1 x.2.2) db1
  let db3 ← samplePlayers.foldlM
    (fun d x => insertOrIgnorePlayer d x.1 x.2.1 x.2.2.1 x.2.2.2) db2
  let db4 ← sampleMatches.foldlM insertOrIgnoreMatch db3
  samplePlayerStats.foldlM insertOrIgnorePlayerStat db4

/-- The database file produced by `create_tables` on a fresh file followed by
`insert_sample_data`. -/
def sampleDB : DB :=
  ⟨createTablesOrder,
   (sampleDivisions.map fun x => ⟨x.1, x.2⟩),
   (sampleTeams.map fun x => ⟨x.1, x.2.1, x.2.2⟩),
   (samplePlayers.map fun x => ⟨x.1, x.2.1, x.2.2.1, x.2.2.2⟩),
   sampleMatches,
   samplePlayerStats⟩

/-! ## Basic lemmas about the connection lifecycle -/

lemma connect_fst_file (s : MState) : (connect s).1.file = s.file := by
  unfold connect
  cases s.mgr.connection <;> rfl

lemma connect_of_some {s : MState} {c : Connection} (h : s.mgr.connection = some c) :
    connect s = (s, c) := by
  unfold connect
  rw [h]

lemma connect_of_none {s : MState} (h : s.mgr.connection = none) :
    connect s =
      ({ s with mgr := { s.mgr with connection := some ⟨true, true⟩ } }, ⟨true, true⟩) := by
  unfold connect
  rw [h]

lemma connect_fst_connection (s : MState) :
    (connect s).1.mgr.connection = some (connect s).2 := by
  unfold connect
  cases h : s.mgr.connection <;> simp [h]

lemma close_connection (s : MState) : (close s).mgr.connection = none := by
  unfold close
  cases h : s.mgr.connection <;> simp [h]

lemma close_of_none {s : MState} (h : s.mgr.connection = none) : close s = s := by
  unfold close
  rw [h]

lemma close_file (s : MState) : (close s).file = s.file := by
  unfold close
  cases s.mgr.connection <;> rfl

lemma close_db_name (s : MState) : (close s).mgr.db_name = s.mgr.db_name := by
  unfold close
  cases s.mgr.connection <;> rfl

/-- On an engine error, `execute_query` rolls back: the file keeps its
committed contents and the engine's error is re-raised unchanged. -/
lemma execute_query_error {s : MState} {q : WriteQuery} {p : Option (List Value)} {e : SqlError}
    (h : q (effectiveParams p) s.file = .error e) :
    (execute_query s q p).1.file = s.file ∧ (execute_query s q p).2 = .error e := by
  have hc := connect_fst_file s
  simp [execute_query, hc, h]

/-- On engine success, `execute_query` commits the new contents and returns
the affected row count. -/
lemma execute_query_ok {s : MState} {q : WriteQuery} {p : Option (List Value)} {db' : DB} {n : Int}
    (h : q (effectiveParams p) s.file = .ok (db', n)) :
    (execute_query s q p).1.file = db' ∧ (execute_query s q p).2 = .ok n := by
  have hc := connect_fst_file s
  simp [execute_query, hc, h]

/-! ## Claim theorems -/

/-- Claim C1: for every query and optional positional parameter list,
`execute_query` runs the statement on the committed database; on success it
commits the statement's result and returns the affected row count; on any
engine failure it rolls back (the committed database is unchanged by the
failed statement) and re-raises the very same error, with no translation and
no retry. -/
theorem execute_query_spec (s : MState) (q : WriteQuery) (p : Option (List Value)) :
    (∀ db' n, q (effectiveParams p) s.file = .ok (db', n) →
      (execute_query s q p).1.file = db' ∧ (execute_query s q p).2 = .ok n) ∧
    (∀ e, q (effectiveParams p) s.file = .error e →
      (execute_query s q p).1.file = s.file ∧ (execute_query s q p).2 = .error e) :=
  ⟨fun _ _ h => execute_query_ok h, fun _ h => execute_query_error h⟩

/-- Witness for C1 at a concrete state, a concrete succeeding statement and a
concrete failing one. -/
theorem execute_query_spec_witness :
    ((execute_query ⟨sampleDB, ⟨"netball_stats.db", none⟩⟩
        (fun _ db => .ok (db, 3)) none).1.file = sampleDB ∧
      (execute_query ⟨sampleDB, ⟨"netball_stats.db", none⟩⟩
        (fun _ db => .ok (db, 3)) none).2 = .ok 3) ∧
    ((execute_query ⟨sampleDB, ⟨"netball_stats.db", none⟩⟩
        (fun _ _ => .error (.operationalError "no such table: results")) none).1.file
          = sampleDB ∧
      (execute_query ⟨sampleDB, ⟨"netball_stats.db", none⟩⟩
        (fun _ _ => .error (.operationalError "no such table: results")) none).2
          = .error (.operationalError "no such table: results")) :=
  ⟨(execute_query_spec ⟨sampleDB, ⟨"netball_stats.db", none⟩⟩
      (fun _ db => .ok (db, 3)) none).1 sampleDB 3 rfl,
   (execute_query_spec ⟨sampleDB, ⟨"netball_stats.db", none⟩⟩
      (fun _ _ => .error (.operationalError "no such table: results")) none).2
      (.operationalError "no such table: results") rfl⟩

/-- Claim C9: because `params` is tested with Python truthiness (`if params:`),
passing the empty parameter tuple takes the same no-bindings branch as
passing no parameters at all, for `execute_query`, `fetch_all` and
`fetch_one` alike, so the two calls are indistinguishable. -/
theorem empty_params_indistinguishable (s : MState) (qw : WriteQuery) (qr : ReadQuery) :
    execute_query s qw (some []) = execute_query s qw none ∧
    fetch_all s qr (some []) = fetch_all s qr none ∧
    fetch_one s qr (some []) = fetch_one s qr none :=
  ⟨rfl, rfl, rfl⟩

/-- Claim C8: scoped use of the manager: `__enter__` yields the manager
itself to the body, and whatever the body does — finish normally or raise —
`__exit__` runs `close()` on the resulting state, and the body's outcome
(errors included) is propagated unchanged. -/
theorem context_manager_spec {α : Type} (s : MState)
    (body : MState → MState × Except SqlError α) :
    enter_ctx s = s ∧
    (withManager s body).1 = close (body s).1 ∧
    (withManager s body).1.mgr.connection = none ∧
    (withManager s body).2 = (body s).2 :=
  ⟨rfl, rfl, close_connection (body s).1, rfl⟩

lemma execute_query_mgr (s : MState) (q : WriteQuery) (p : Option (List Value)) :
    (execute_query s q p).1.mgr = (connect s).1.mgr := by
  simp only [execute_query]
  split <;> rfl

lemma fetch_all_mgr (s : MState) (q : ReadQuery) (p : Option (List Value)) :
    (fetch_all s q p).1.mgr = (connect s).1.mgr := by
  simp only [fetch_all]
  split <;> rfl

lemma fetch_one_mgr (s : MState) (q : ReadQuery) (p : Option (List Value)) :
    (fetch_one s q p).1.mgr = (connect s).1.mgr := by
  simp only [fetch_one]
  split <;> rfl

lemma fetch_all_ok {s : MState} {q : ReadQuery} {p : Option (List Value)} {rows : List Row}
    (h : q (effectiveParams p) s.file = .ok rows) :
    fetch_all s q p = ((connect s).1, .ok rows) := by
  have hc := connect_fst_file s
  simp [fetch_all, hc, h]

lemma fetch_one_ok {s : MState} {q : ReadQuery} {p : Option (List Value)} {rows : List Row}
    (h : q (effectiveParams p) s.file = .ok rows) :
    fetch_one s q p = ((connect s).1, .ok rows.head?) := by
  have hc := connect_fst_file s
  simp [fetch_one, hc, h]

/-- Claim C4: `close()` is idempotent — any number of calls, including on an
already-closed manager, leaves the manager closed and the file untouched —
and a subsequent `execute_query` or `fetch_all` transparently reopens a fresh
usable connection and runs the statement normally instead of failing. -/
theorem close_spec (s : MState) :
    (close s).mgr.connection = none ∧
    close (close s) = close s ∧
    (∀ k : Nat, close^[k + 1] s = close s) ∧
    (close s).file = s.file ∧
    (∀ q p db' n, q (effectiveParams p) s.file = .ok (db', n) →
      (execute_query (close s) q p).1.mgr.connection = some ⟨true, true⟩ ∧
      (execute_query (close s) q p).1.file = db' ∧
      (execute_query (close s) q p).2 = .ok n) ∧
    (∀ q p rows, q (effectiveParams p) s.file = .ok rows →
      (fetch_all (close s) q p).1.mgr.connection = some ⟨true, true⟩ ∧
      (fetch_all (close s) q p).2 = .ok rows) := by
  have h1 := close_connection s
  have h2 : close (close s) = close s := close_of_none h1
  have hconn : (connect (close s)).1.mgr.connection = some ⟨true, true⟩ := by
    rw [connect_of_none h1]
  refine ⟨h1, h2, ?_, close_file s, ?_, ?_⟩
  · intro k
    induction k with
    | zero => exact Function.iterate_one close ▸ rfl
    | succ k ih =>
      rw [Function.iterate_succ_apply', ih, h2]
  · intro q p db' n h
    have h' : q (effectiveParams p) (close s).file = .ok (db', n) := by
      rw [close_file s]; exact h
    obtain ⟨hf, hv⟩ := execute_query_ok h'
    exact ⟨by rw [execute_query_mgr]; exact hconn, hf, hv⟩
  · intro q p rows h
    have h' : q (effectiveParams p) (close s).file = .ok rows := by
      rw [close_file s]; exact h
    rw [fetch_all_ok h']
    exact ⟨hconn, rfl⟩

/-- Witness for C4: reconnect after `close` at a concrete connected state,
with a concrete write statement and a concrete SELECT. -/
theorem close_spec_witness :
    (execute_query (close ⟨sampleDB, ⟨"netball_stats.db", some ⟨true, true⟩⟩⟩)
        (fun _ db => .ok (db, 7)) none).1.mgr.connection = some ⟨true, true⟩ ∧
    (execute_query (close ⟨sampleDB, ⟨"netball_stats.db", some ⟨true, true⟩⟩⟩)
        (fun _ db => .ok (db, 7)) none).2 = .ok 7 ∧
    (fetch_all (close ⟨sampleDB, ⟨"netball_stats.db", some ⟨true, true⟩⟩⟩)
        (fun _ _ => .ok []) none).2 = .ok [] := by
  obtain ⟨-, -, -, -, hexec, hfetch⟩ :=
    close_spec ⟨sampleDB, ⟨"netball_stats.db", some ⟨true, true⟩⟩⟩
  obtain ⟨ha, -, hb⟩ := hexec (fun _ db => .ok (db, 7)) none sampleDB 7 rfl
  exact ⟨ha, hb, (hfetch (fun _ _ => .ok []) none [] rfl).2⟩

/-- The configuration invariant every open connection satisfies: foreign-key
enforcement on and the field-named row factory installed. -/
def connInv (o : Option Connection) : Prop :=
  ∀ c, o = some c → c = ⟨true, true⟩

/-- Claim C5: the layer holds at most one connection (the manager's single
`Option Connection` slot): while a connection is open `connect` is a no-op
returning that same handle and every operation leaves it in place; a freshly
created connection has foreign keys on and the row factory set; and this
configuration invariant is preserved by every operation. -/
theorem single_connection_spec :
    (∀ s : MState, ∀ c, s.mgr.connection = some c → connect s = (s, c)) ∧
    (∀ s : MState, s.mgr.connection = none →
      (connect s).2 = ⟨true, true⟩ ∧
      (connect s).1.mgr.connection = some ⟨true, true⟩ ∧
      (connect s).1.file = s.file ∧ (connect s).1.mgr.db_name = s.mgr.db_name) ∧
    (∀ s : MState, ∀ c qw qr p, s.mgr.connection = some c →
      (execute_query s qw p).1.mgr.connection = some c ∧
      (fetch_all s qr p).1.mgr.connection = some c ∧
      (fetch_one s qr p).1.mgr.connection = some c) ∧
    (∀ s : MState, connInv s.mgr.connection →
      connInv (connect s).1.mgr.connection ∧ connInv (close s).mgr.connection) ∧
    (∀ s : MState, ∀ q p, connInv s.mgr.connection →
      connInv (execute_query s q p).1.mgr.connection) ∧
    (∀ s : MState, ∀ q p, connInv s.mgr.connection →
      connInv (fetch_all s q p).1.mgr.connection ∧
      connInv (fetch_one s q p).1.mgr.connection) := by
  have hconnInv : ∀ s : MState, connInv s.mgr.connection →
      connInv (connect s).1.mgr.connection := by
    intro s hs
    cases h : s.mgr.connection with
    | some c => rw [connect_of_some h]; exact hs
    | none =>
      rw [connect_of_none h]
      intro c hc
      exact (Option.some_inj.mp hc).symm
  refine ⟨?_, ?_, ?_, ?_, ?_, ?_⟩
  · intro s c h; exact connect_of_some h
  · intro s h; rw [connect_of_none h]; exact ⟨rfl, rfl, rfl, rfl⟩
  · intro s c qw qr p h
    have hc : (connect s).1.mgr.connection = some c := by rw [connect_of_some h]; exact h
    exact ⟨by rw [execute_query_mgr]; exact hc,
      by rw [fetch_all_mgr]; exact hc, by rw [fetch_one_mgr]; exact hc⟩
  · intro s hs
    refine ⟨hconnInv s hs, ?_⟩
    rw [close_connection]
    intro c hc
    exact nomatch hc
  · intro s q p hs
    rw [execute_query_mgr]
    exact hconnInv s hs
  · intro s q p hs
    rw [fetch_all_mgr, fetch_one_mgr]
    exact ⟨hconnInv s hs, hconnInv s hs⟩

/-- Witness for C5: connection reuse and invariant preservation at concrete
states. -/
theorem single_connection_spec_witness :
    connect ⟨sampleDB, ⟨"netball_stats.db", some ⟨true, true⟩⟩⟩
      = (⟨sampleDB, ⟨"netball_stats.db", some ⟨true, true⟩⟩⟩, ⟨true, true⟩) ∧
    connInv (execute_query ⟨sampleDB, ⟨"netball_stats.db", none⟩⟩
      (fun _ db => .ok (db, 0)) none).1.mgr.connection :=
  ⟨single_connection_spec.1 ⟨sampleDB, ⟨"netball_stats.db", some ⟨true, true⟩⟩⟩
      ⟨true, true⟩ rfl,
   single_connection_spec.2.2.2.2.1 ⟨sampleDB, ⟨"netball_stats.db", none⟩⟩
      (fun _ db => .ok (db, 0)) none (fun _ h => nomatch h)⟩

/-! ## DDL lemmas (for claim C6) -/

lemma createTable_tables (db : DB) (n : String) :
    (createTable db n).tables = if n ∈ db.tables then db.tables else db.tables ++ [n] := by
  simp only [createTable]
  split_ifs <;> rfl

lemma mem_createTable {db : DB} {n m : String} :
    m ∈ (createTable db n).tables ↔ m ∈ db.tables ∨ m = n := by
  rw [createTable_tables]
  split_ifs with h
  · constructor
    · exact Or.inl
    · rintro (hm | rfl)
      · exact hm
      · exact h
  · simp

lemma createTable_of_mem {db : DB} {n : String} (h : n ∈ db.tables) :
    createTable db n = db := by
  simp only [createTable]
  rw [if_pos h]

lemma mem_create_tables (db : DB) :
    "divisions" ∈ (create_tables db).tables ∧
    "teams" ∈ (create_tables db).tables ∧
    "players" ∈ (create_tables db).tables ∧
    "matches" ∈ (create_tables db).tables ∧
    "player_stats" ∈ (create_tables db).tables := by
  refine ⟨?_, ?_, ?_, ?_, ?_⟩ <;>
    simp [create_tables, createTablesOrder, List.foldl, mem_createTable]

lemma create_tables_idem (db : DB) :
    create_tables (create_tables db) = create_tables db := by
  obtain ⟨h1, h2, h3, h4, h5⟩ := mem_create_tables db
  generalize hD : create_tables db = D at h1 h2 h3 h4 h5 ⊢
  show create_tables D = D
  unfold create_tables createTablesOrder
  simp only [List.foldl]
  rw [createTable_of_mem h1, createTable_of_mem h2, createTable_of_mem h3,
    createTable_of_mem h4, createTable_of_mem h5]

lemma filter_ne_of_not_mem {l : List String} {n : String} (h : n ∉ l) :
    l.filter (fun t => !(t == n)) = l := by
  apply List.filter_eq_self.mpr
  intro a ha
  simp only [Bool.not_eq_eq_eq_not, Bool.not_true, beq_eq_false_iff_ne, ne_eq]
  rintro rfl
  exact h ha

lemma dropTable_id_divisions {db : DB} (h : "divisions" ∉ db.tables)
    (h2 : db.divisions = []) : dropTable db "divisions" = db := by
  obtain ⟨t, d, tm, pl, mr, ps⟩ := db
  simp only at h2
  subst h2
  simp [dropTable, filter_ne_of_not_mem h]

lemma dropTable_id_teams {db : DB} (h : "teams" ∉ db.tables)
    (h2 : db.teams = []) : dropTable db "teams" = db := by
  obtain ⟨t, d, tm, pl, mr, ps⟩ := db
  simp only at h2
  subst h2
  simp [dropTable, filter_ne_of_not_mem h]

lemma dropTable_id_players {db : DB} (h : "players" ∉ db.tables)
    (h2 : db.players = []) : dropTable db "players" = db := by
  obtain ⟨t, d, tm, pl, mr, ps⟩ := db
  simp only at h2
  subst h2
  simp [dropTable, filter_ne_of_not_mem h]

lemma dropTable_id_matches {db : DB} (h : "matches" ∉ db.tables)
    (h2 : db.match_rows = []) : dropTable db "matches" = db := by
  obtain ⟨t, d, tm, pl, mr, ps⟩ := db
  simp only at h2
  subst h2
  simp [dropTable, filter_ne_of_not_mem h]

lemma dropTable_id_player_stats {db : DB} (h : "player_stats" ∉ db.tables)
    (h2 : db.player_stats = []) : dropTable db "player_stats" = db := by
  obtain ⟨t, d, tm, pl, mr, ps⟩ := db
  simp only at h2
  subst h2
  simp [dropTable, filter_ne_of_not_mem h]

lemma drop_tables_facts (db : DB) :
    "divisions" ∉ (drop_tables db).tables ∧
    "teams" ∉ (drop_tables db).tables ∧
    "players" ∉ (drop_tables db).tables ∧
    "matches" ∉ (drop_tables db).tables ∧
    "player_stats" ∉ (drop_tables db).tables ∧
    (drop_tables db).divisions = [] ∧
    (drop_tables db).teams = [] ∧
    (drop_tables db).players = [] ∧
    (drop_tables db).match_rows = [] ∧
    (drop_tables db).player_stats = [] := by
  refine ⟨?_, ?_, ?_, ?_, ?_, ?_, ?_, ?_, ?_, ?_⟩ <;>
    simp [drop_tables, dropTablesOrder, dropTable, List.foldl, List.mem_filter]

lemma drop_tables_idem (db : DB) :
    drop_tables (drop_tables db) = drop_tables db := by
  obtain ⟨h1, h2, h3, h4, h5, e1, e2, e3, e4, e5⟩ := drop_tables_facts db
  generalize hD : drop_tables db = D at h1 h2 h3 h4 h5 e1 e2 e3 e4 e5 ⊢
  show drop_tables D = D
  unfold drop_tables dropTablesOrder
  simp only [List.foldl]
  rw [dropTable_id_player_stats h5 e5, dropTable_id_matches h4 e4,
    dropTable_id_players h3 e3, dropTable_id_teams h2 e2, dropTable_id_divisions h1 e1]

/-- Claim C6: `create_tables` issues exactly five `CREATE TABLE IF NOT
EXISTS` statements in dependency order (divisions, teams, players, matches,
player_stats), `drop_tables` issues `DROP TABLE IF EXISTS` in exactly the
reverse order, and both are idempotent: a repeated call succeeds and leaves
the schema unchanged. -/
theorem schema_ddl_spec (db : DB) :
    createTablesOrder = ["divisions", "teams", "players", "matches", "player_stats"] ∧
    dropTablesOrder = ["player_stats", "matches", "players", "teams", "divisions"] ∧
    dropTablesOrder = createTablesOrder.reverse ∧
    createTablesOrder.length = 5 ∧
    create_tables db = createTablesOrder.foldl createTable db ∧
    drop_tables db = dropTablesOrder.foldl dropTable db ∧
    create_tables (create_tables db) = create_tables db ∧
    drop_tables (drop_tables db) = drop_tables db :=
  ⟨rfl, rfl, rfl, rfl, rfl, rfl, create_tables_idem db, drop_tables_idem db⟩

/-- Claim C7: on a freshly created schema, `insert_sample_data` succeeds and
inserts exactly the fixed fixture set — 3 divisions, 4 teams, 6 players, 2
matches and 6 player-stat rows — via `INSERT OR IGNORE`, and it is
idempotent: a second call on the resulting database raises no error and
leaves every table's contents identical. -/
theorem insert_sample_data_spec :
    insert_sample_data (create_tables emptyDB) = .ok sampleDB ∧
    sampleDB.divisions.length = 3 ∧
    sampleDB.teams.length = 4 ∧
    sampleDB.players.length = 6 ∧
    sampleDB.match_rows.length = 2 ∧
    sampleDB.player_stats.length = 6 ∧
    insert_sample_data sampleDB = .ok sampleDB :=
  ⟨rfl, rfl, rfl, rfl, rfl, rfl, rfl⟩

/-! ## Introspection lemmas (for claim C10) -/

lemma mem_insertSorted {a s : String} {l : List String} :
    a ∈ insertSorted s l ↔ a = s ∨ a ∈ l := by
  induction l with
  | nil => simp [insertSorted]
  | cons t ts ih =>
    simp only [insertSorted]
    split_ifs
    · simp
    · simp only [List.mem_cons, ih]
      tauto

lemma mem_sortNames {a : String} {l : List String} : a ∈ sortNames l ↔ a ∈ l := by
  induction l with
  | nil => simp [sortNames]
  | cons t ts ih =>
    have h : sortNames (t :: ts) = insertSorted t (sortNames ts) := rfl
    rw [h, mem_insertSorted, ih, List.mem_cons]

lemma table_exists_iff {db : DB} {n : String} :
    table_exists db n = true ↔ n ∈ db.tables := by
  simp [table_exists, List.contains, List.elem_iff]

lemma mem_get_table_names {db : DB} {n : String} :
    n ∈ get_table_names db ↔ n ∈ db.tables ∧ matchesSqliteLike n = false := by
  rw [get_table_names, mem_sortNames, List.mem_filter]
  simp

/-- Counterexample to C10 as stated.  `get_table_names` filters with
`name NOT LIKE 'sqlite_%'`, and under SQL LIKE semantics `_` is a
single-character wildcard, so a user table named `sqliteXtra` — which does
NOT begin with the literal string `sqlite_` — is nevertheless omitted from
`get_table_names` while `table_exists` reports it, contradicting the claim
that the two operations agree on all tables not beginning with `sqlite_`. -/
theorem table_introspection_counterexample :
    "sqlite_".data.isPrefixOf "sqliteXtra".data = false ∧
    table_exists ⟨["sqliteXtra"], [], [], [], [], []⟩ "sqliteXtra" = true ∧
    "sqliteXtra" ∉ get_table_names ⟨["sqliteXtra"], [], [], [], [], []⟩ := by
  refine ⟨by decide, by decide, ?_⟩
  rw [mem_get_table_names]
  decide

/-- Claim C10, amended: `table_exists n` is true exactly when `n` is in the
catalog (exact-name comparison), while `get_table_names` lists exactly the
catalog entries whose name does not match the pattern `sqlite_%` under LIKE
semantics (ASCII-case-insensitively, `sqlite` followed by at least one
character).  The two therefore disagree exactly on tables matching that
pattern — which includes every name beginning with `sqlite_`, but also names
such as `sqliteXtra` — and agree on all others. -/
theorem table_introspection_amended (db : DB) (n : String) :
    (table_exists db n = true ↔ n ∈ db.tables) ∧
    (n ∈ get_table_names db ↔ n ∈ db.tables ∧ matchesSqliteLike n = false) ∧
    (matchesSqliteLike n = false → (table_exists db n = true ↔ n ∈ get_table_names db)) ∧
    (matchesSqliteLike n = true → n ∉ get_table_names db) := by
  refine ⟨table_exists_iff, mem_get_table_names, ?_, ?_⟩
  · intro h
    rw [table_exists_iff, mem_get_table_names]
    simp [h]
  · intro h
    rw [mem_get_table_names]
    simp [h]

/-- Witness for the amended C10: an internal table is reported by
`table_exists` and omitted by `get_table_names`; an ordinary table is
reported by both. -/
theorem table_introspection_amended_witness :
    ("sqlite_sequence" ∉
      get_table_names ⟨["sqlite_sequence", "teams"], [], [], [], [], []⟩) ∧
    (table_exists ⟨["sqlite_sequence", "teams"], [], [], [], [], []⟩ "teams" = true ↔
      "teams" ∈ get_table_names ⟨["sqlite_sequence", "teams"], [], [], [], [], []⟩) := by
  refine ⟨?_, ?_⟩
  · exact (table_introspection_amended
      ⟨["sqlite_sequence", "teams"], [], [], [], [], []⟩ "sqlite_sequence").2.2.2
      (by decide)
  · exact (table_introspection_amended
      ⟨["sqlite_sequence", "teams"], [], [], [], [], []⟩ "teams").2.2.1 (by decide)

/-! ## Constraint violations on INSERT (claim C3) -/

/-- The SQL text `INSERT INTO divisions (id, name) VALUES (?, ?)` as a
parameterized statement: binds the two positional parameters and runs the
engine-level insert. -/
def insertDivisionStmt : WriteQuery := fun ps db =>
  match ps with
  | [.int i, .text n] => (insertDivision db i n).map (fun db' => (db', 1))
  | _ => .error (.operationalError "Incorrect number of bindings supplied")

/-- The SQL text `INSERT INTO matches (...) VALUES (?, ?, ?, ?, ?, ?, ?)` as
a parameterized statement. -/
def insertMatchStmt : WriteQuery := fun ps db =>
  match ps with
  | [.int i, .text d, .int dv, .int t1, .int t2, .int s1, .int s2] =>
    (insertMatch db ⟨i, d, dv, t1, t2, s1, s2⟩).map (fun db' => (db', 1))
  | _ => .error (.operationalError "Incorrect number of bindings supplied")

/-- The SQL text `INSERT INTO player_stats (...) VALUES (?, ..., ?)` as a
parameterized statement. -/
def insertPlayerStatStmt : WriteQuery := fun ps db =>
  match ps with
  | [.int i, .int p, .int m, .int a, .int g, .int cp, .int tp, .int rb, .int ic, .int tv] =>
    (insertPlayerStat db ⟨i, p, m, a, g, cp, tp, rb, ic, tv⟩).map (fun db' => (db', 1))
  | _ => .error (.operationalError "Incorrect number of bindings supplied")

/-- The positional parameter tuple a match row is bound from. -/
def matchParams (m : MatchRec) : List Value :=
  [.int m.id, .text m.date, .int m.division_id, .int m.team1_id, .int m.team2_id,
   .int m.team1_score, .int m.team2_score]

/-- The positional parameter tuple a player-stat row is bound from. -/
def playerStatParams (s : PlayerStat) : List Value :=
  [.int s.id, .int s.player_id, .int s.match_id, .int s.attempts, .int s.goals,
   .int s.center_passes, .int s.tips, .int s.rebounds, .int s.interceptions,
   .int s.turnovers]

lemma map_error_of {e : SqlError} {x : Except SqlError DB}
    (h : x = .error e) : x.map (fun db' => ((db', 1) : DB × Int)) = .error e := by
  rw [h]; rfl

lemma insertDivision_ok_divisions {db : DB} {i : Int} {n : String} {db' : DB}
    (h : insertDivision db i n = .ok db') :
    db'.divisions = db.divisions ++ [⟨i, n⟩] := by
  simp only [insertDivision] at h
  split_ifs at h
  injection h with h
  rw [← h]

lemma insertPlayerStat_ok_stats {db : DB} {ps : PlayerStat} {db' : DB}
    (h : insertPlayerStat db ps = .ok db') :
    db'.player_stats = db.player_stats ++ [ps] := by
  simp only [insertPlayerStat] at h
  split_ifs at h
  injection h with h
  rw [← h]

lemma insertDivision_dup_name {db : DB} {i : Int} {n : String} {db' : DB}
    (h : insertDivision db i n = .ok db') (j : Int) :
    ∃ m, insertDivision db' j n = .error (.integrityError m) := by
  have hn : db'.divisions.any (fun x => x.name == n) = true := by
    rw [insertDivision_ok_divisions h]
    simp
  by_cases hid : db'.divisions.any (fun x => x.id == j) = true
  · exact ⟨"UNIQUE constraint failed: divisions.id", by simp [insertDivision, hid]⟩
  · exact ⟨"UNIQUE constraint failed: divisions.name", by simp [insertDivision, hid, hn]⟩

lemma insertMatch_same_teams (db : DB) {m : MatchRec} (h : m.team1_id = m.team2_id) :
    ∃ msg, insertMatch db m = .error (.integrityError msg) := by
  by_cases hid : db.match_rows.any (fun x => x.id == m.id) = true
  · exact ⟨"UNIQUE constraint failed: matches.id", by simp [insertMatch, hid]⟩
  · exact ⟨"CHECK constraint failed: matches", by simp [insertMatch, hid, h]⟩

lemma insertPlayerStat_dup_pair {db : DB} {ps : PlayerStat} {db' : DB}
    (h : insertPlayerStat db ps = .ok db') (qs : PlayerStat)
    (hp : qs.player_id = ps.player_id) (hm : qs.match_id = ps.match_id) :
    ∃ m, insertPlayerStat db' qs = .error (.integrityError m) := by
  have hpair : db'.player_stats.any
      (fun x => x.player_id == qs.player_id && x.match_id == qs.match_id) = true := by
    rw [insertPlayerStat_ok_stats h]
    simp [hp, hm]
  by_cases hid : db'.player_stats.any (fun x => x.id == qs.id) = true
  · exact ⟨"UNIQUE constraint failed: player_stats.id", by simp [insertPlayerStat, hid]⟩
  · exact ⟨"UNIQUE constraint failed: player_stats.player_id, player_stats.match_id",
      by simp [insertPlayerStat, hid, hpair]⟩

/-- Claim C3: on the created schema an insert raises a constraint
(integrity) error exactly when it violates a declared constraint: an insert
with fresh id and fresh name succeeds, while a second division with an
already-present name, a match with `team1_id = team2_id`, and a second
player-stat row with the same `(player_id, match_id)` pair each fail with an
integrity error — and, issued through `execute_query`, the failed statement
leaves the database unchanged (the offending row is not stored). -/
theorem constraint_violation_spec :
    (∀ db : DB, ∀ i : Int, ∀ n : String,
      db.divisions.any (fun x => x.id == i) = false →
      db.divisions.any (fun x => x.name == n) = false →
      insertDivision db i n = .ok { db with divisions := db.divisions ++ [⟨i, n⟩] }) ∧
    (∀ db : DB, ∀ i : Int, ∀ n : String, ∀ db' : DB, ∀ j : Int,
      insertDivision db i n = .ok db' →
      (∃ m, insertDivision db' j n = .error (.integrityError m)) ∧
      ∀ s : MState, s.file = db' →
        (execute_query s insertDivisionStmt (some [.int j, .text n])).1.file = db' ∧
        ∃ m, (execute_query s insertDivisionStmt (some [.int j, .text n])).2
          = .error (.integrityError m)) ∧
    (∀ db : DB, ∀ m : MatchRec, m.team1_id = m.team2_id →
      (∃ msg, insertMatch db m = .error (.integrityError msg)) ∧
      ∀ s : MState, s.file = db →
        (execute_query s insertMatchStmt (some (matchParams m))).1.file = db ∧
        ∃ msg, (execute_query s insertMatchStmt (some (matchParams m))).2
          = .error (.integrityError msg)) ∧
    (∀ db : DB, ∀ ps : PlayerStat, ∀ db' : DB, ∀ qs : PlayerStat,
      insertPlayerStat db ps = .ok db' →
      qs.player_id = ps.player_id → qs.match_id = ps.match_id →
      (∃ m, insertPlayerStat db' qs = .error (.integrityError m)) ∧
      ∀ s : MState, s.file = db' →
        (execute_query s insertPlayerStatStmt (some (playerStatParams qs))).1.file = db' ∧
        ∃ m, (execute_query s insertPlayerStatStmt (some (playerStatParams qs))).2
          = .error (.integrityError m)) := by
  refine ⟨?_, ?_, ?_, ?_⟩
  · intro db i n h1 h2
    simp [insertDivision, h1, h2]
  · intro db i n db' j h
    obtain ⟨m0, hm0⟩ := insertDivision_dup_name h j
    refine ⟨⟨m0, hm0⟩, ?_⟩
    intro s hs
    have herr : insertDivisionStmt
        (effectiveParams (some [.int j, .text n])) s.file
          = .error (.integrityError m0) := by
      rw [hs]
      exact map_error_of hm0
    obtain ⟨hf, hv⟩ := execute_query_error herr
    exact ⟨by rw [hf, hs], ⟨m0, hv⟩⟩
  · intro db m hm
    obtain ⟨m0, hm0⟩ := insertMatch_same_teams db hm
    refine ⟨⟨m0, hm0⟩, ?_⟩
    intro s hs
    have herr : insertMatchStmt (effectiveParams (some (matchParams m))) s.file
        = .error (.integrityError m0) := by
      rw [hs]
      exact map_error_of hm0
    obtain ⟨hf, hv⟩ := execute_query_error herr
    exact ⟨by rw [hf, hs], ⟨m0, hv⟩⟩
  · intro db ps db' qs h hp hmm
    obtain ⟨m0, hm0⟩ := insertPlayerStat_dup_pair h qs hp hmm
    refine ⟨⟨m0, hm0⟩, ?_⟩
    intro s hs
    have herr : insertPlayerStatStmt
        (effectiveParams (some (playerStatParams qs))) s.file
          = .error (.integrityError m0) := by
      rw [hs]
      exact map_error_of hm0
    obtain ⟨hf, hv⟩ := execute_query_error herr
    exact ⟨by rw [hf, hs], ⟨m0, hv⟩⟩

/-- Witness for C3 at concrete inputs built over the sample database. -/
theorem constraint_violation_spec_witness :
    insertDivision sampleDB 4 "Division 3"
      = .ok { sampleDB with divisions := sampleDB.divisions ++ [⟨4, "Division 3"⟩] } ∧
    (∃ m, insertDivision
        { sampleDB with divisions := sampleDB.divisions ++ [⟨4, "Division 3"⟩] }
        5 "Division 3" = .error (.integrityError m)) ∧
    (∃ msg, insertMatch sampleDB ⟨3, "2024-02-01", 1, 1, 1, 0, 0⟩
        = .error (.integrityError msg)) ∧
    (∃ m, insertPlayerStat
        { sampleDB with player_stats := sampleDB.player_stats ++ [⟨7, 1, 2, 1, 1, 0, 0, 0, 0, 0⟩] }
        ⟨8, 1, 2, 0, 0, 0, 0, 0, 0, 0⟩ = .error (.integrityError m)) :=
  ⟨constraint_violation_spec.1 sampleDB 4 "Division 3" rfl rfl,
   (constraint_violation_spec.2.1 sampleDB 4 "Division 3"
      { sampleDB with divisions := sampleDB.divisions ++ [⟨4, "Division 3"⟩] } 5 rfl).1,
   (constraint_violation_spec.2.2.1 sampleDB ⟨3, "2024-02-01", 1, 1, 1, 0, 0⟩ rfl).1,
   (constraint_violation_spec.2.2.2 sampleDB ⟨7, 1, 2, 1, 1, 0, 0, 0, 0, 0⟩
      { sampleDB with player_stats := sampleDB.player_stats ++ [⟨7, 1, 2, 1, 1, 0, 0, 0, 0, 0⟩] }
      ⟨8, 1, 2, 0, 0, 0, 0, 0, 0, 0⟩ rfl rfl rfl).1⟩

/-! ## Cascade delete (claim C2) -/

lemma contains_iff {α : Type} [BEq α] [LawfulBEq α] {l : List α} {a : α} :
    l.contains a = true ↔ a ∈ l :=
  List.elem_iff

lemma bool_eq_false {b : Bool} : b = false ↔ ¬(b = true) := by
  cases b <;> simp

/-- The claim's notion of a team transitively owned by division `d`. -/
def TeamOwned (d : Int) (t : Team) : Prop := t.division_id = d

/-- The claim's notion of a player transitively owned by division `d`: the
player is on a team of that division. -/
def PlayerOwned (db : DB) (d : Int) (p : Player) : Prop :=
  ∃ t ∈ db.teams, t.division_id = d ∧ t.id = p.team_id

/-- The claim's notion of a match transitively owned by division `d`: it
references the division, or one of its two teams is in the division. -/
def MatchOwned (db : DB) (d : Int) (m : MatchRec) : Prop :=
  m.division_id = d ∨
    ∃ t ∈ db.teams, t.division_id = d ∧ (t.id = m.team1_id ∨ t.id = m.team2_id)

/-- The claim's notion of a player-stat transitively owned by division `d`:
it references an owned player or an owned match. -/
def StatOwned (db : DB) (d : Int) (s : PlayerStat) : Prop :=
  (∃ p ∈ db.players, PlayerOwned db d p ∧ p.id = s.player_id) ∨
  (∃ m ∈ db.match_rows, MatchOwned db d m ∧ m.id = s.match_id)

section CascadeLemmas

variable {db : DB} {d : Int}

lemma teamGone_iff (hex : db.divisions.any (fun x => x.id == d) = true) (t : Team) :
    teamGone db d t = true ↔ TeamOwned d t := by
  simp [teamGone, hex, TeamOwned]

lemma mem_goneTeamIds (hex : db.divisions.any (fun x => x.id == d) = true) {a : Int} :
    a ∈ goneTeamIds db d ↔ ∃ t ∈ db.teams, t.division_id = d ∧ t.id = a := by
  simp only [goneTeamIds, List.mem_map, List.mem_filter, teamGone_iff hex, TeamOwned]
  tauto

lemma playerGone_iff (hex : db.divisions.any (fun x => x.id == d) = true) (p : Player) :
    playerGone db d p = true ↔ PlayerOwned db d p := by
  rw [playerGone, contains_iff, mem_goneTeamIds hex, PlayerOwned]

lemma mem_gonePlayerIds (hex : db.divisions.any (fun x => x.id == d) = true) {a : Int} :
    a ∈ gonePlayerIds db d ↔ ∃ p ∈ db.players, PlayerOwned db d p ∧ p.id = a := by
  simp only [gonePlayerIds, List.mem_map, List.mem_filter, playerGone_iff hex]
  tauto

lemma matchGone_iff (hex : db.divisions.any (fun x => x.id == d) = true) (m : MatchRec) :
    matchGone db d m = true ↔ MatchOwned db d m := by
  simp only [matchGone, Bool.or_eq_true, Bool.and_eq_true, hex, true_and,
    beq_iff_eq, contains_iff, mem_goneTeamIds hex, MatchOwned]
  constructor
  · rintro ((h | ⟨t, ht, hd1, hid⟩) | ⟨t, ht, hd1, hid⟩)
    · exact Or.inl h
    · exact Or.inr ⟨t, ht, hd1, Or.inl hid⟩
    · exact Or.inr ⟨t, ht, hd1, Or.inr hid⟩
  · rintro (h | ⟨t, ht, hd1, hid | hid⟩)
    · exact Or.inl (Or.inl h)
    · exact Or.inl (Or.inr ⟨t, ht, hd1, hid⟩)
    · exact Or.inr ⟨t, ht, hd1, hid⟩

lemma mem_goneMatchIds (hex : db.divisions.any (fun x => x.id == d) = true) {a : Int} :
    a ∈ goneMatchIds db d ↔ ∃ m ∈ db.match_rows, MatchOwned db d m ∧ m.id = a := by
  simp only [goneMatchIds, List.mem_map, List.mem_filter, matchGone_iff hex]
  tauto

lemma statGone_iff (hex : db.divisions.any (fun x => x.id == d) = true) (s : PlayerStat) :
    statGone db d s = true ↔ StatOwned db d s := by
  rw [statGone, StatOwned, Bool.or_eq_true, contains_iff, contains_iff,
    mem_gonePlayerIds hex, mem_goneMatchIds hex]

end CascadeLemmas

/-- Claim C2: after `create_tables`, deleting a Division cascades exactly as
the declared foreign keys demand: each of the five tables keeps a row if and
only if it is not transitively owned by the deleted division — every team in
the division, every player on such a team, every match referencing the
division or such a team, and every player-stat referencing such a player or
match is removed, and every other row is left unchanged. -/
theorem deleteDivision_cascade (db : DB) (d : Int)
    (hd : ∃ x ∈ db.divisions, x.id = d) :
    (∀ x : Division, x ∈ (deleteDivision db d).divisions ↔
      x ∈ db.divisions ∧ ¬ x.id = d) ∧
    (∀ t : Team, t ∈ (deleteDivision db d).teams ↔
      t ∈ db.teams ∧ ¬ TeamOwned d t) ∧
    (∀ p : Player, p ∈ (deleteDivision db d).players ↔
      p ∈ db.players ∧ ¬ PlayerOwned db d p) ∧
    (∀ m : MatchRec, m ∈ (deleteDivision db d).match_rows ↔
      m ∈ db.match_rows ∧ ¬ MatchOwned db d m) ∧
    (∀ s : PlayerStat, s ∈ (deleteDivision db d).player_stats ↔
      s ∈ db.player_stats ∧ ¬ StatOwned db d s) := by
  have hex : db.divisions.any (fun x => x.id == d) = true := by
    rw [List.any_eq_true]
    obtain ⟨x, hx, hix⟩ := hd
    exact ⟨x, hx, by simp [hix]⟩
  refine ⟨?_, ?_, ?_, ?_, ?_⟩ <;> intro r
  · simp [deleteDivision, List.mem_filter]
  · simp only [deleteDivision, List.mem_filter, Bool.not_eq_eq_eq_not, Bool.not_true,
      bool_eq_false, teamGone_iff hex]
  · simp only [deleteDivision, List.mem_filter, Bool.not_eq_eq_eq_not, Bool.not_true,
      bool_eq_false, playerGone_iff hex]
  · simp only [deleteDivision, List.mem_filter, Bool.not_eq_eq_eq_not, Bool.not_true,
      bool_eq_false, matchGone_iff hex]
  · simp only [deleteDivision, List.mem_filter, Bool.not_eq_eq_eq_not, Bool.not_true,
      bool_eq_false, statGone_iff hex]

/-- Witness for C2 on the sample database: deleting division 1 removes team
1 (owned) and keeps team 3 (unrelated). -/
theorem deleteDivision_cascade_witness :
    (⟨1, "Red Dragons", 1⟩ : Team) ∉ (deleteDivision sampleDB 1).teams ∧
    (⟨3, "Green Lions", 2⟩ : Team) ∈ (deleteDivision sampleDB 1).teams := by
  constructor
  · intro hmem
    exact (((deleteDivision_cascade sampleDB 1
      ⟨⟨1, "Premier Division"⟩, by decide, rfl⟩).2.1
        ⟨1, "Red Dragons", 1⟩).mp hmem).2 rfl
  · exact ((deleteDivision_cascade sampleDB 1
      ⟨⟨1, "Premier Division"⟩, by decide, rfl⟩).2.1
        ⟨3, "Green Lions", 2⟩).mpr ⟨by decide, by simp [TeamOwned]⟩

end Netball
